import Mathlib

/-!
Verification of the SkillBridge-AI generation-and-presentation pipeline.

The development shallowly embeds the data model (`src/types.ts`), the
Generation Client operations (`analyzeJobDescription`, `generateStudyPlan`,
`generateQuiz`, `generateCodeChallenges` in the service module appended to
`src/types.ts`), the orchestration pipeline (`handleAnalyze`, `refreshQuiz`,
`refreshChallenges` in `src/App.tsx`), the intake form (`handleSubmit` in the
`JobAnalyzer` component) and the quiz runner (`src/components/Quiz.tsx`).

Network calls are modelled by an explicit `ServiceResult` value passed to the
operation: the remote service's reply is an input, and the operation is the
pure function the source code applies to it.  Each generation function in the
source wraps its body in `try/catch`; the catch arm becomes the non-`ok`
branches of the match.
-/

namespace SkillBridge

/-- `CompanyType` enum from `src/types.ts`; the `UNKNOWN` case carries the
string value `'General'`. -/
inductive CompanyType
  | PRODUCT
  | SERVICE
  | STARTUP
  | UNKNOWN
  deriving DecidableEq, Repr

/-- The string value of each `CompanyType` enum member in the source. -/
def CompanyType.value : CompanyType → String
  | .PRODUCT => "Product-based"
  | .SERVICE => "Service-based"
  | .STARTUP => "Startup"
  | .UNKNOWN => "General"

/-- `JobAnalysis` interface from `src/types.ts`. -/
structure JobAnalysis where
  role : String
  company : String
  type : CompanyType
  skills : List String
  summary : String
  deriving DecidableEq, Repr

/-- `StudyModule` interface from `src/types.ts`. -/
structure StudyModule where
  week : String
  topic : String
  description : String
  resources : List String
  deriving DecidableEq, Repr

/-- `TrainingPlan` interface from `src/types.ts`. -/
structure TrainingPlan where
  techStack : List String
  studyPlan : List StudyModule
  deriving DecidableEq, Repr

/-- `QuizQuestion` interface from `src/types.ts`.  `id` and `correctAnswer`
are JSON integers, hence `Int` (nothing in the code keeps them nonnegative). -/
structure QuizQuestion where
  id : Int
  category : String
  question : String
  options : List String
  correctAnswer : Int
  explanation : String
  deriving DecidableEq, Repr

/-- Difficulty union type of `CodeChallenge` from `src/types.ts`. -/
inductive Difficulty
  | Easy
  | Medium
  | Hard
  deriving DecidableEq, Repr

/-- The `starterCode` record of `CodeChallenge`: one template per language. -/
structure StarterCode where
  python : String
  javascript : String
  java : String
  deriving DecidableEq, Repr

/-- `CodeChallenge` interface from `src/types.ts`. -/
structure CodeChallenge where
  title : String
  description : String
  difficulty : Difficulty
  starterCode : StarterCode
  deriving DecidableEq, Repr

/-!
## Generation Client (service module)

Each operation awaits one `ai.models.generateContent` call inside
`try { ... } catch { ... }`.  A `ServiceResult α` describes what that call
delivered:

* `networkError` – the awaited call itself threw (network failure etc.);
* `noText` – the call returned but `response.text` was empty/undefined;
* `parseError` – `response.text` was present but `JSON.parse` threw;
* `ok v` – `response.text` parsed as a value conforming to the attached
  response schema (the `as`-cast in the source performs no runtime check, so
  `v` is exactly what the service sent, unvalidated beyond the schema).
-/
inductive ServiceResult (α : Type)
  | networkError
  | noText
  | parseError
  | ok (value : α)
  deriving DecidableEq, Repr

/-- A `ServiceResult` that does not deliver a parsed value. -/
def ServiceResult.failed {α : Type} : ServiceResult α → Bool
  | .ok _ => false
  | _ => true

/-- JavaScript `a || d` on an optional string: `undefined` and `""` are falsy. -/
def jsOrElse (a : Option String) (d : String) : String :=
  match a with
  | none => d
  | some s => if s.isEmpty then d else s

/-- The fallback `JobAnalysis` built in the catch arm of
`analyzeJobDescription`. -/
def analyzeFallback (userProvidedCompany : Option String) : JobAnalysis :=
  { role := "Software Engineer"
  , company := jsOrElse userProvidedCompany "Unknown Company"
  , type := CompanyType.UNKNOWN
  , skills := ["Problem Solving"]
  , summary := "Could not analyze the JD properly. Please try again." }

/-- `analyzeJobDescription` from the service module: on `ok` it returns the
parsed reply unchanged (`JSON.parse(response.text) as JobAnalysis`); on a
missing text it throws, and every thrown error is caught and replaced by the
fixed fallback.  The text and image arguments only shape the request, never
the result, and the function is total: no error reaches the caller. -/
def analyzeJobDescription (text : String) (imageBase64 : Option String)
    (userProvidedCompany : Option String)
    (resp : ServiceResult JobAnalysis) : JobAnalysis :=
  match resp with
  | .ok a => a
  | _ => analyzeFallback userProvidedCompany

/-- `generateStudyPlan` from the service module: parsed reply on success,
`[]` on any failure (missing text throws "No plan generated", caught). -/
def generateStudyPlan (job : JobAnalysis)
    (resp : ServiceResult (List StudyModule)) : List StudyModule :=
  match job, resp with
  | _, .ok modules => modules
  | _, _ => []

/-- `generateQuiz` from the service module: parsed reply on success; a
missing `response.text` returns `[]` directly, and the catch arm also
returns `[]`.  No field of the reply is validated. -/
def generateQuiz (job : JobAnalysis)
    (resp : ServiceResult (List QuizQuestion)) : List QuizQuestion :=
  match job, resp with
  | _, .ok questions => questions
  | _, _ => []

/-- The hard-coded "Two Sum" fallback challenge built in the catch arm of
`generateCodeChallenges`; its description interpolates `job.company`. -/
def twoSumFallback (company : String) : CodeChallenge :=
  { title := "Two Sum"
  , description := "Given an array of integers nums and an integer target, return indices of the two numbers such that they add up to target. (Often asked by " ++ company ++ ")"
  , difficulty := Difficulty.Easy
  , starterCode :=
    { python := "def two_sum(nums, target):\n    # Write your code here\n    pass"
    , javascript := "function twoSum(nums, target) \x7b\n    // Write your code here\n\x7d"
    , java := "class Solution \x7b\n    public int[] twoSum(int[] nums, int target) \x7b\n        // Write your code here\n        return new int[]\x7b\x7d;\n    \x7d\n\x7d" } }

/-- `generateCodeChallenges` from the service module: parsed reply on success
(whatever its length — the code never checks it), single-entry "Two Sum"
fallback on any failure (missing text throws "No challenge generated",
caught). -/
def generateCodeChallenges (job : JobAnalysis)
    (resp : ServiceResult (List CodeChallenge)) : List CodeChallenge :=
  match resp with
  | .ok challenges => challenges
  | _ => [twoSumFallback job.company]

/-!
## Orchestration pipeline (`src/App.tsx`)

`App` holds the tab, the loading flag and the four data slots in React state.
`handleAnalyze` is the one pipeline entry point: it awaits
`analyzeJobDescription` (blocking), then issues the three dependent
generation calls via `Promise.all`, then writes all result slots and switches
the tab; a `catch` arm shows an alert and a `finally` arm clears the loading
flag.

The run is driven by a `RunEnv` giving each step's outcome.  Since every
Generation Client operation catches its own failures, a step-level `exn`
models an *unexpected* exception escaping that step of the orchestration (the
failure surface of the pipeline tier); `ok v` models the step completing with
`v` — which may itself be the operation's internal fallback value.  Besides
the final state, the run yields a trace of `Event`s recording when each call
was issued, completed, and when the UI committed. -/

/-- `Tab` enum from `src/App.tsx`. -/
inductive Tab
  | analysis
  | plan
  | quiz
  | code
  deriving DecidableEq, Repr

/-- The React state of `App` in `src/App.tsx`. -/
structure AppState where
  activeTab : Tab
  loading : Bool
  jobData : Option JobAnalysis
  trainingPlan : Option TrainingPlan
  quiz : List QuizQuestion
  challenges : List CodeChallenge
  deriving DecidableEq, Repr

/-- Initial `useState` values of `App`. -/
def initialAppState : AppState :=
  { activeTab := Tab.analysis
  , loading := false
  , jobData := none
  , trainingPlan := none
  , quiz := []
  , challenges := [] }

/-- Outcome of one awaited pipeline step: a returned value, or an exception
escaping the step. -/
inductive Outcome (α : Type)
  | ok (value : α)
  | exn
  deriving DecidableEq, Repr

/-- One pipeline run's environment: the outcome of the blocking analyze step
and of the three dependent generation calls joined by `Promise.all`. -/
structure RunEnv where
  analyzeOutcome : Outcome JobAnalysis
  planOutcome : Outcome (List StudyModule)
  quizOutcome : Outcome (List QuizQuestion)
  challengesOutcome : Outcome (List CodeChallenge)
  deriving DecidableEq, Repr

/-- Observable events of a pipeline run, in trace order. -/
inductive Event
  | analyzeIssued
  | analyzeCompleted
  | planIssued
  | quizIssued
  | challengesIssued
  | planReturned
  | quizReturned
  | challengesReturned
  | joinCompleted
  | readyEntered
  | alertShown
  deriving DecidableEq, Repr

/-- `handleAnalyze` from `src/App.tsx`: sets `loading`, awaits the blocking
analyze call, stores `jobData`, issues the three dependent calls via
`Promise.all`, writes `trainingPlan`/`quiz`/`challenges`, switches to the
Plan tab; any thrown error is caught (alert) and `finally` clears `loading`.
When analyze throws, none of the dependent calls is ever issued; when the
join throws, `jobData` has already been stored and the tab is not switched. -/
def handleAnalyze (env : RunEnv) (s : AppState) : AppState × List Event :=
  let s1 : AppState := { s with loading := true }
  match env.analyzeOutcome with
  | .exn =>
    ({ s1 with loading := false }, [Event.analyzeIssued, Event.alertShown])
  | .ok analysis =>
    let s2 : AppState := { s1 with jobData := some analysis }
    let issued : List Event :=
      [Event.analyzeIssued, Event.analyzeCompleted,
       Event.planIssued, Event.quizIssued, Event.challengesIssued]
    match env.planOutcome, env.quizOutcome, env.challengesOutcome with
    | .ok planModules, .ok quizQuestions, .ok codeChallenges =>
      ({ s2 with
          trainingPlan := some { techStack := analysis.skills
                               , studyPlan := planModules }
        , quiz := quizQuestions
        , challenges := codeChallenges
        , activeTab := Tab.plan
        , loading := false },
       issued ++ [Event.planReturned, Event.quizReturned,
                  Event.challengesReturned, Event.joinCompleted,
                  Event.readyEntered])
    | _, _, _ =>
      ({ s2 with loading := false }, issued ++ [Event.alertShown])

/-- `refreshQuiz` from `src/App.tsx`: returns immediately when `jobData` is
null, otherwise issues one `generateQuiz` call and stores its result. -/
def refreshQuiz (resp : ServiceResult (List QuizQuestion))
    (s : AppState) : AppState × List Event :=
  match s.jobData with
  | none => (s, [])
  | some job => ({ s with quiz := generateQuiz job resp }, [Event.quizIssued])

/-- `refreshChallenges` from `src/App.tsx`: returns immediately when
`jobData` is null, otherwise issues one `generateCodeChallenges` call and
stores its result. -/
def refreshChallenges (resp : ServiceResult (List CodeChallenge))
    (s : AppState) : AppState × List Event :=
  match s.jobData with
  | none => (s, [])
  | some job =>
    ({ s with challenges := generateCodeChallenges job resp },
     [Event.challengesIssued])

/-!
## Intake form (`JobAnalyzer` component)

The analyzer form holds an input-mode tab, the pasted text, the company name,
the optionally loaded image (a data URL) and an inline error message.
`handleSubmit` validates and either sets the error or calls `onAnalyze`
(which is `App.handleAnalyze`); the submit button is rendered with
`disabled={isLoading}`, so a click reaches `handleSubmit` only when the
loading flag is clear. -/

/-- The `'text' | 'image'` input-mode union of the analyzer form. -/
inductive InputMode
  | text
  | image
  deriving DecidableEq, Repr

/-- The React state of the `JobAnalyzer` form. -/
structure FormState where
  activeTab : InputMode
  text : String
  companyName : String
  image : Option String
  error : String
  deriving DecidableEq, Repr

/-- JavaScript's `String.prototype.trim()`: the string with whitespace
stripped from both ends. -/
def jsTrim (s : String) : String :=
  String.mk
    (((s.data.dropWhile Char.isWhitespace).reverse.dropWhile
        Char.isWhitespace).reverse)

/-- `handleSubmit` of `JobAnalyzer`: clears the error, validates (company
name required; text required in text mode; image required in image mode) and
on failure sets the inline error without calling `onAnalyze`; otherwise
extracts the raw base64 from the data URL and invokes the pipeline. -/
def handleSubmit (env : RunEnv) (f : FormState)
    (s : AppState) : FormState × AppState × List Event :=
  let f0 : FormState := { f with error := "" }
  if (jsTrim f0.companyName).isEmpty then
    ({ f0 with error := "Please enter a target company name." }, s, [])
  else if f0.activeTab = InputMode.text ∧ (jsTrim f0.text).isEmpty then
    ({ f0 with error := "Please paste the job description text." }, s, [])
  else if f0.activeTab = InputMode.image ∧ f0.image = none then
    ({ f0 with error := "Please upload a job description image." }, s, [])
  else
    let result := handleAnalyze env s
    (f0, result.1, result.2)

/-- A click on the "Generate Training Plan" button: the button carries
`disabled={isLoading}`, so the browser delivers the click to `handleSubmit`
only when `loading` is false. -/
def clickGenerate (env : RunEnv) (f : FormState)
    (s : AppState) : FormState × AppState × List Event :=
  if s.loading then (f, s, []) else handleSubmit env f s

/-!
## Quiz runner (`src/components/Quiz.tsx`)

The quiz view holds the active category, the index into the category's
question list, the currently selected option, the result flag and the score.
`handleSelect` ignores clicks once the result is shown; otherwise it records
the selection, shows the result and bumps the score when the selected index
equals the current question's `correctAnswer`.  `handleNext` advances and
resets the per-question flags; `handleCategorySelect` starts a category run. -/

/-- The React state of the `Quiz` component. -/
structure QuizState where
  activeCategory : Option String
  currentIdx : Nat
  selectedOption : Option Nat
  showResult : Bool
  score : Nat
  deriving DecidableEq, Repr

/-- Initial `useState` values of `Quiz`. -/
def initialQuizState : QuizState :=
  { activeCategory := none
  , currentIdx := 0
  , selectedOption := none
  , showResult := false
  , score := 0 }

/-- `activeQuestions`: the questions of the active category (empty when no
category is active), as filtered in `Quiz.tsx`. -/
def activeQuestions (questions : List QuizQuestion)
    (st : QuizState) : List QuizQuestion :=
  match st.activeCategory with
  | none => []
  | some cat => questions.filter (fun q => q.category == cat)

/-- `handleCategorySelect` of `Quiz.tsx`: enter a category run with index,
score and per-question flags reset. -/
def handleCategorySelect (st : QuizState) (cat : String) : QuizState :=
  { st with
      activeCategory := some cat
    , currentIdx := 0
    , score := 0
    , selectedOption := none
    , showResult := false }

/-- `handleBackToTopics` of `Quiz.tsx`. -/
def handleBackToTopics (st : QuizState) : QuizState :=
  { st with activeCategory := none }

/-- `handleSelect` of `Quiz.tsx`: a no-op once `showResult` is set; otherwise
records the selected option, shows the result, and increments the score
exactly when the selected index equals the current question's
`correctAnswer`.  A click can only arrive on a rendered option button, so the
current question exists; when it does not (empty category), the source would
fault before updating state, so no state change is modelled. -/
def handleSelect (questions : List QuizQuestion) (st : QuizState)
    (idx : Nat) : QuizState :=
  if st.showResult then st
  else
    match (activeQuestions questions st)[st.currentIdx]? with
    | none => st
    | some currentQ =>
      { st with
          selectedOption := some idx
        , showResult := true
        , score := if (idx : Int) = currentQ.correctAnswer then st.score + 1
                   else st.score }

/-- `handleNext` of `Quiz.tsx`: advance within the category and reset the
per-question flags, but only when not already at the last question
(`currentIdx < activeQuestions.length - 1`, with JavaScript arithmetic:
for an empty list the comparison `0 < -1` is false, as is `n < m - 1` in
truncated `Nat` subtraction). -/
def handleNext (questions : List QuizQuestion) (st : QuizState) : QuizState :=
  if st.currentIdx + 1 < (activeQuestions questions st).length then
    { st with
        currentIdx := st.currentIdx + 1
      , selectedOption := none
      , showResult := false }
  else st

/-- The user interactions the quiz view can deliver. -/
inductive QuizAction
  | selectCategory (cat : String)
  | backToTopics
  | select (idx : Nat)
  | next
  deriving DecidableEq, Repr

/-- One quiz interaction step. -/
def quizStep (questions : List QuizQuestion) (st : QuizState) :
    QuizAction → QuizState
  | .selectCategory cat => handleCategorySelect st cat
  | .backToTopics => handleBackToTopics st
  | .select idx => handleSelect questions st idx
  | .next => handleNext questions st

/-- Run a sequence of quiz interactions. -/
def quizRun (questions : List QuizQuestion) (st : QuizState) :
    List QuizAction → QuizState
  | [] => st
  | a :: rest => quizRun questions (quizStep questions st a) rest

/-- The number of questions answered along an interaction sequence: the steps
on which the result flag flips from hidden to shown, i.e. the selections that
take effect. -/
def answeredCount (questions : List QuizQuestion) (st : QuizState) :
    List QuizAction → Nat
  | [] => 0
  | a :: rest =>
    let st2 := quizStep questions st a
    (if st.showResult = false ∧ st2.showResult = true then 1 else 0)
      + answeredCount questions st2 rest

/-!
## Trace-order helper
-/

/-- `occursBefore a b tr`: the first occurrence of `a` in `tr` is strictly
before some occurrence of `b`. -/
def occursBefore (a b : Event) : List Event → Bool
  | [] => false
  | e :: rest => if e = a then rest.contains b else occursBefore a b rest

/-!
## Sample values used by witnesses and counterexamples
-/

/-- A concrete `JobAnalysis` for witnesses. -/
def sampleJob : JobAnalysis :=
  { role := "Backend Engineer"
  , company := "Amazon"
  , type := CompanyType.PRODUCT
  , skills := ["Java", "AWS"]
  , summary := "Backend role at Amazon." }

/-- A schema-conforming analysis reply whose `company` field ignores the
prompt's instruction to use the user-supplied name. -/
def strayAnalysisReply : JobAnalysis :=
  { role := "Backend Engineer"
  , company := "Globex"
  , type := CompanyType.STARTUP
  , skills := ["Java"]
  , summary := "A generic summary." }

/-- A schema-conforming quiz reply whose single entry has `correctAnswer = 5`
against an options list of length 2. -/
def strayQuizReply : List QuizQuestion :=
  [{ id := 1
   , category := "Aptitude"
   , question := "Pick one"
   , options := ["yes", "no"]
   , correctAnswer := 5
   , explanation := "none" }]

/-!
## Claim theorems: Generation Client
-/

/-- Shared helper: every non-`ok` service result makes
`analyzeJobDescription` return the fixed fallback. -/
theorem analyzeJobDescription_of_failed (text : String)
    (imageBase64 : Option String) (userProvidedCompany : Option String)
    (resp : ServiceResult JobAnalysis) (h : resp.failed = true) :
    analyzeJobDescription text imageBase64 userProvidedCompany resp
      = analyzeFallback userProvidedCompany := by
  cases resp with
  | ok a => simp [ServiceResult.failed] at h
  | networkError => rfl
  | noText => rfl
  | parseError => rfl

/-- C2: for every input, every failing service result makes
`analyzeJobDescription` return exactly the fixed fallback `JobAnalysis`:
role `"Software Engineer"`, company equal to the supplied name when
non-empty and `"Unknown Company"` otherwise, type `UNKNOWN` (the `'General'`
category), skills `["Problem Solving"]` and a fixed summary explaining the
failure; being a total function of the service result, the operation never
raises an error to its caller. -/
theorem analyze_failure_returns_fixed_fallback (text : String)
    (imageBase64 : Option String) (userProvidedCompany : Option String)
    (resp : ServiceResult JobAnalysis) (hfail : resp.failed = true) :
    (analyzeJobDescription text imageBase64 userProvidedCompany resp).role
        = "Software Engineer" ∧
    (∀ name : String, userProvidedCompany = some name → name.isEmpty = false →
      (analyzeJobDescription text imageBase64 userProvidedCompany resp).company
        = name) ∧
    ((userProvidedCompany = none ∨ userProvidedCompany = some "") →
      (analyzeJobDescription text imageBase64 userProvidedCompany resp).company
        = "Unknown Company") ∧
    (analyzeJobDescription text imageBase64 userProvidedCompany resp).type
        = CompanyType.UNKNOWN ∧
    (analyzeJobDescription text imageBase64 userProvidedCompany resp).skills
        = ["Problem Solving"] ∧
    (analyzeJobDescription text imageBase64 userProvidedCompany resp).summary
        = "Could not analyze the JD properly. Please try again." := by
  rw [analyzeJobDescription_of_failed text imageBase64 userProvidedCompany resp hfail]
  refine ⟨rfl, ?_, ?_, rfl, rfl, rfl⟩
  · intro name hname hne
    subst hname
    simp [analyzeFallback, jsOrElse, hne]
  · intro hcase
    rcases hcase with h | h <;> subst h <;> simp [analyzeFallback, jsOrElse] <;> decide

/-- Witness for C2 at a concrete input: a network error with supplied company
`"Amazon"` yields the fallback with `company = "Amazon"` and type `UNKNOWN`. -/
theorem analyze_failure_returns_fixed_fallback_witness :
    (analyzeJobDescription "some JD text" none (some "Amazon")
        ServiceResult.networkError).company = "Amazon" ∧
    (analyzeJobDescription "some JD text" none (some "Amazon")
        ServiceResult.networkError).type = CompanyType.UNKNOWN := by
  have h := analyze_failure_returns_fixed_fallback "some JD text" none
    (some "Amazon") ServiceResult.networkError rfl
  exact ⟨h.2.1 "Amazon" rfl (by decide), h.2.2.2.1⟩

/-- C5 counterexample: on a successful, schema-conforming service reply the
code returns the parsed reply unchanged, so the `company` field is whatever
the service sent — here `"Globex"` — and not the supplied name `"Amazon"`. -/
theorem analyze_success_company_not_supplied_name :
    (analyzeJobDescription "Backend Engineer, Java, AWS" none (some "Amazon")
        (ServiceResult.ok strayAnalysisReply)).company ≠ "Amazon" := by
  decide

/-- C5 amended: the `type` field of the analysis result is always one of the
four defined categories (the attached response schema constrains a
conforming reply to the enum, and the fallback uses `UNKNOWN`); the
`company` field equals the supplied non-empty name on every failure outcome,
while on success the result is the service's parsed reply itself, whose
`company` field the code never checks against the supplied name. -/
theorem analyze_company_and_type_amended (text : String)
    (imageBase64 : Option String) (name : String)
    (resp : ServiceResult JobAnalysis) :
    ((analyzeJobDescription text imageBase64 (some name) resp).type
        = CompanyType.PRODUCT ∨
     (analyzeJobDescription text imageBase64 (some name) resp).type
        = CompanyType.SERVICE ∨
     (analyzeJobDescription text imageBase64 (some name) resp).type
        = CompanyType.STARTUP ∨
     (analyzeJobDescription text imageBase64 (some name) resp).type
        = CompanyType.UNKNOWN) ∧
    (resp.failed = true → name.isEmpty = false →
      (analyzeJobDescription text imageBase64 (some name) resp).company
        = name) ∧
    (∀ a : JobAnalysis, resp = ServiceResult.ok a →
      analyzeJobDescription text imageBase64 (some name) resp = a) := by
  refine ⟨?_, ?_, ?_⟩
  · cases (analyzeJobDescription text imageBase64 (some name) resp).type <;> simp
  · intro hfail hne
    exact (analyze_failure_returns_fixed_fallback text imageBase64
      (some name) resp hfail).2.1 name rfl hne
  · intro a ha
    subst ha
    rfl

/-- Witness for the amended C5 at a concrete input: on a parse error with
supplied name `"TCS"` the company is `"TCS"`; on the stray success reply the
result is the reply itself. -/
theorem analyze_company_and_type_amended_witness :
    (analyzeJobDescription "jd" none (some "TCS")
        ServiceResult.parseError).company = "TCS" ∧
    analyzeJobDescription "jd" none (some "TCS")
        (ServiceResult.ok strayAnalysisReply) = strayAnalysisReply := by
  constructor
  · exact (analyze_company_and_type_amended "jd" none "TCS"
      ServiceResult.parseError).2.1 rfl (by decide)
  · exact (analyze_company_and_type_amended "jd" none "TCS"
      (ServiceResult.ok strayAnalysisReply)).2.2 strayAnalysisReply rfl

/-- C3 counterexample: `generateQuiz` performs no validation, so a
schema-conforming reply whose entry has `correctAnswer = 5` against an
options list of length 2 is returned as-is, violating the index bound. -/
theorem generateQuiz_index_bound_violated :
    ¬ (∀ q ∈ generateQuiz sampleJob (ServiceResult.ok strayQuizReply),
        0 ≤ q.correctAnswer ∧ q.correctAnswer < (q.options.length : Int)) := by
  decide

/-- C3 amended: `generateQuiz` returns the empty list on every failing
service result and the parsed service reply verbatim on success, validating
no field; consequently every returned entry's `correctAnswer` is a valid
index into its `options` exactly when every entry of a successful reply
satisfies that bound (vacuously on failure). -/
theorem generateQuiz_returns_reply_unvalidated (job : JobAnalysis)
    (resp : ServiceResult (List QuizQuestion)) :
    (resp.failed = true → generateQuiz job resp = []) ∧
    (∀ questions, resp = ServiceResult.ok questions →
      generateQuiz job resp = questions) ∧
    ((∀ q ∈ generateQuiz job resp,
        0 ≤ q.correctAnswer ∧ q.correctAnswer < (q.options.length : Int)) ↔
     (∀ questions, resp = ServiceResult.ok questions →
        ∀ q ∈ questions,
          0 ≤ q.correctAnswer ∧ q.correctAnswer < (q.options.length : Int))) := by
  cases resp with
  | ok questions =>
    refine ⟨fun h => by simp [ServiceResult.failed] at h, ?_, ?_⟩
    · intro qs hqs
      cases hqs
      rfl
    · constructor
      · intro hall qs hqs
        cases hqs
        exact hall
      · intro hall
        exact hall questions rfl
  | networkError =>
    refine ⟨fun _ => rfl, fun qs hqs => by simp at hqs, ?_, ?_⟩
    · intro _ qs hqs
      simp at hqs
    · intro _ q hq
      simp [generateQuiz] at hq
  | noText =>
    refine ⟨fun _ => rfl, fun qs hqs => by simp at hqs, ?_, ?_⟩
    · intro _ qs hqs
      simp at hqs
    · intro _ q hq
      simp [generateQuiz] at hq
  | parseError =>
    refine ⟨fun _ => rfl, fun qs hqs => by simp at hqs, ?_, ?_⟩
    · intro _ qs hqs
      simp at hqs
    · intro _ q hq
      simp [generateQuiz] at hq

/-- Witness for the amended C3 at concrete inputs: a network error yields
the empty quiz, and the stray out-of-range reply is passed through
verbatim. -/
theorem generateQuiz_returns_reply_unvalidated_witness :
    generateQuiz sampleJob ServiceResult.networkError = [] ∧
    generateQuiz sampleJob (ServiceResult.ok strayQuizReply)
      = strayQuizReply := by
  constructor
  · exact (generateQuiz_returns_reply_unvalidated sampleJob
      ServiceResult.networkError).1 rfl
  · exact (generateQuiz_returns_reply_unvalidated sampleJob
      (ServiceResult.ok strayQuizReply)).2.1 strayQuizReply rfl

/-- C4 counterexample: a successful, schema-conforming reply carrying the
JSON array `[]` is a non-empty truthy `response.text`, so the parsed empty
list is returned as-is — neither a 3-entry list nor the single-entry
fallback. -/
theorem generateCodeChallenges_empty_on_empty_reply :
    generateCodeChallenges sampleJob (ServiceResult.ok []) = [] ∧
    (generateCodeChallenges sampleJob (ServiceResult.ok [])).length ≠ 1 ∧
    (generateCodeChallenges sampleJob (ServiceResult.ok [])).length ≠ 3 := by
  exact ⟨rfl, by decide, by decide⟩

set_option maxRecDepth 8192 in
/-- C4 amended: `generateCodeChallenges` returns the parsed service reply
exactly as supplied on success (whatever its length — the code never checks
it), and the single-entry "Two Sum" fallback on every failing service
result; in the fallback, starter code is present (non-empty) for all three
languages and the description mentions the analyzed company. -/
theorem generateCodeChallenges_fallback_or_reply (job : JobAnalysis)
    (resp : ServiceResult (List CodeChallenge)) :
    (resp.failed = true →
      generateCodeChallenges job resp = [twoSumFallback job.company] ∧
      (generateCodeChallenges job resp).length = 1 ∧
      (twoSumFallback job.company).title = "Two Sum" ∧
      (twoSumFallback job.company).difficulty = Difficulty.Easy ∧
      (twoSumFallback job.company).starterCode.python.isEmpty = false ∧
      (twoSumFallback job.company).starterCode.javascript.isEmpty = false ∧
      (twoSumFallback job.company).starterCode.java.isEmpty = false) ∧
    (∀ challenges, resp = ServiceResult.ok challenges →
      generateCodeChallenges job resp = challenges) := by
  constructor
  · intro hfail
    have hfb : generateCodeChallenges job resp = [twoSumFallback job.company] := by
      cases resp with
      | ok challenges => simp [ServiceResult.failed] at hfail
      | networkError => rfl
      | noText => rfl
      | parseError => rfl
    exact ⟨hfb, by rw [hfb]; rfl, rfl, rfl, rfl, rfl, rfl⟩
  · intro challenges hch
    subst hch
    rfl

/-- Witness for the amended C4 at a concrete input: when the call fails, the
result is exactly the single-entry "Two Sum" fallback for the analyzed
company. -/
theorem generateCodeChallenges_fallback_or_reply_witness :
    generateCodeChallenges sampleJob ServiceResult.noText
      = [twoSumFallback "Amazon"] := by
  exact (generateCodeChallenges_fallback_or_reply sampleJob
    ServiceResult.noText).1 rfl |>.1

/-!
## Claim theorems: Orchestration pipeline
-/

/-- A run environment in which every step returns a value. -/
def allOkEnv : RunEnv :=
  { analyzeOutcome := Outcome.ok sampleJob
  , planOutcome := Outcome.ok []
  , quizOutcome := Outcome.ok strayQuizReply
  , challengesOutcome := Outcome.ok [twoSumFallback "Amazon"] }

/-- C1: in every pipeline run, the completion of the blocking analyze step
strictly precedes the issue of each of the three dependent calls wherever
they appear in the trace, and the run enters the Ready state — training
plan, quiz and challenges slots written and the active view switched to the
study plan — only after all three dependent calls have returned (and only
when all three returned values). -/
theorem pipeline_analyze_blocks_then_ready (env : RunEnv) (s : AppState) :
    (Event.planIssued ∈ (handleAnalyze env s).2 →
      occursBefore Event.analyzeCompleted Event.planIssued
        (handleAnalyze env s).2 = true) ∧
    (Event.quizIssued ∈ (handleAnalyze env s).2 →
      occursBefore Event.analyzeCompleted Event.quizIssued
        (handleAnalyze env s).2 = true) ∧
    (Event.challengesIssued ∈ (handleAnalyze env s).2 →
      occursBefore Event.analyzeCompleted Event.challengesIssued
        (handleAnalyze env s).2 = true) ∧
    (Event.readyEntered ∈ (handleAnalyze env s).2 →
      occursBefore Event.planReturned Event.readyEntered
        (handleAnalyze env s).2 = true ∧
      occursBefore Event.quizReturned Event.readyEntered
        (handleAnalyze env s).2 = true ∧
      occursBefore Event.challengesReturned Event.readyEntered
        (handleAnalyze env s).2 = true ∧
      (handleAnalyze env s).1.activeTab = Tab.plan ∧
      (handleAnalyze env s).1.trainingPlan.isSome = true ∧
      env.quizOutcome = Outcome.ok (handleAnalyze env s).1.quiz ∧
      env.challengesOutcome = Outcome.ok (handleAnalyze env s).1.challenges) := by
  obtain ⟨a, p, q, c⟩ := env
  cases a <;> cases p <;> cases q <;> cases c <;>
    simp [handleAnalyze, occursBefore]

/-- Witness for C1 at a concrete all-success run from the initial state. -/
theorem pipeline_analyze_blocks_then_ready_witness :
    occursBefore Event.analyzeCompleted Event.planIssued
      (handleAnalyze allOkEnv initialAppState).2 = true ∧
    (handleAnalyze allOkEnv initialAppState).1.activeTab = Tab.plan := by
  have h := pipeline_analyze_blocks_then_ready allOkEnv initialAppState
  exact ⟨h.1 (by decide), (h.2.2.2 (by decide)).2.2.2.1⟩

/-- C6: when an exception escapes a pipeline step — the blocking analyze
call or the concurrent join of the three dependent calls — the run is
aborted: the alert is shown, Ready is never entered, the active view is not
switched, the loading flag ends cleared (so a new submit is accepted again,
i.e. the pipeline is back to Idle), and nothing is retried: analyze is
issued exactly once and each dependent call at most once. -/
theorem pipeline_exception_aborts_run (env : RunEnv) (s : AppState)
    (hexn : env.analyzeOutcome = Outcome.exn ∨ env.planOutcome = Outcome.exn ∨
      env.quizOutcome = Outcome.exn ∨ env.challengesOutcome = Outcome.exn) :
    Event.alertShown ∈ (handleAnalyze env s).2 ∧
    Event.readyEntered ∉ (handleAnalyze env s).2 ∧
    (handleAnalyze env s).1.activeTab = s.activeTab ∧
    (handleAnalyze env s).1.loading = false ∧
    (handleAnalyze env s).2.count Event.analyzeIssued = 1 ∧
    (handleAnalyze env s).2.count Event.planIssued ≤ 1 ∧
    (handleAnalyze env s).2.count Event.quizIssued ≤ 1 ∧
    (handleAnalyze env s).2.count Event.challengesIssued ≤ 1 := by
  obtain ⟨a, p, q, c⟩ := env
  cases a <;> cases p <;> cases q <;> cases c <;>
    simp_all [handleAnalyze]

/-- Witness for C6 at a concrete run whose join is rejected. -/
theorem pipeline_exception_aborts_run_witness :
    Event.alertShown ∈
      (handleAnalyze
        { analyzeOutcome := Outcome.ok sampleJob
        , planOutcome := Outcome.exn
        , quizOutcome := Outcome.ok []
        , challengesOutcome := Outcome.ok [] } initialAppState).2 ∧
    (handleAnalyze
        { analyzeOutcome := Outcome.ok sampleJob
        , planOutcome := Outcome.exn
        , quizOutcome := Outcome.ok []
        , challengesOutcome := Outcome.ok [] } initialAppState).1.activeTab
      = Tab.analysis := by
  have h := pipeline_exception_aborts_run
    { analyzeOutcome := Outcome.ok sampleJob
    , planOutcome := Outcome.exn
    , quizOutcome := Outcome.ok []
    , challengesOutcome := Outcome.ok [] } initialAppState
    (Or.inr (Or.inl rfl))
  exact ⟨h.1, h.2.2.1⟩

/-- C7: when validation fails — company name blank after trimming, or the
text blank in text mode, or no image loaded in image mode — `handleSubmit`
rejects the submission: a non-empty inline error is set, the pipeline is not
invoked (no events), and the application state is unchanged. -/
theorem submit_validation_blocks (env : RunEnv) (f : FormState) (s : AppState)
    (hbad : (jsTrim f.companyName).isEmpty = true ∨
      (f.activeTab = InputMode.text ∧ (jsTrim f.text).isEmpty = true) ∨
      (f.activeTab = InputMode.image ∧ f.image = none)) :
    (handleSubmit env f s).2.1 = s ∧
    (handleSubmit env f s).2.2 = [] ∧
    (handleSubmit env f s).1.error.isEmpty = false := by
  by_cases h1 : (jsTrim f.companyName).isEmpty = true
  · simp [handleSubmit, h1]
    decide
  · by_cases h2 : f.activeTab = InputMode.text ∧ (jsTrim f.text).isEmpty = true
    · simp [handleSubmit, h1, h2]
      decide
    · by_cases h3 : f.activeTab = InputMode.image ∧ f.image = none
      · simp [handleSubmit, h1, h2, h3]
        decide
      · rcases hbad with h | h | h
        · exact absurd h h1
        · exact absurd h h2
        · exact absurd h h3

/-- Witness for C7 at a concrete form with a blank company name. -/
theorem submit_validation_blocks_witness :
    (handleSubmit allOkEnv
      { activeTab := InputMode.text, text := "some JD", companyName := "  "
      , image := none, error := "" } initialAppState).2.1
      = initialAppState ∧
    (handleSubmit allOkEnv
      { activeTab := InputMode.text, text := "some JD", companyName := "  "
      , image := none, error := "" } initialAppState).2.2 = [] := by
  have h := submit_validation_blocks allOkEnv
    { activeTab := InputMode.text, text := "some JD", companyName := "  "
    , image := none, error := "" } initialAppState (Or.inl (by decide))
  exact ⟨h.1, h.2.1⟩

/-- C8: while the loading flag is set — a run is in its Analyzing or
Generating phase — a click on the submit button is not delivered (the button
is disabled), so the form, the application state are unchanged and no
analyze call is issued: at most one pipeline run is active at a time. -/
theorem no_second_run_while_loading (env : RunEnv) (f : FormState)
    (s : AppState) (hload : s.loading = true) :
    clickGenerate env f s = (f, s, []) ∧
    Event.analyzeIssued ∉ (clickGenerate env f s).2.2 := by
  simp [clickGenerate, hload]

/-- Witness for C8 at a concrete loading state. -/
theorem no_second_run_while_loading_witness :
    clickGenerate allOkEnv
      { activeTab := InputMode.text, text := "jd", companyName := "Amazon"
      , image := none, error := "" }
      { initialAppState with loading := true }
      = ({ activeTab := InputMode.text, text := "jd", companyName := "Amazon"
         , image := none, error := "" },
         { initialAppState with loading := true }, []) := by
  exact (no_second_run_while_loading allOkEnv
    { activeTab := InputMode.text, text := "jd", companyName := "Amazon"
    , image := none, error := "" }
    { initialAppState with loading := true } rfl).1

/-- C9: with no stored analysis (`jobData = null`), `refreshQuiz` and
`refreshChallenges` return immediately: no generation call is issued and the
whole application state — in particular the quiz and challenges slots — is
unchanged. -/
theorem refresh_noop_without_analysis
    (respQ : ServiceResult (List QuizQuestion))
    (respC : ServiceResult (List CodeChallenge))
    (s : AppState) (h : s.jobData = none) :
    refreshQuiz respQ s = (s, []) ∧ refreshChallenges respC s = (s, []) := by
  constructor <;> simp only [refreshQuiz, refreshChallenges, h]

/-- Witness for C9 at the initial application state. -/
theorem refresh_noop_without_analysis_witness :
    refreshQuiz (ServiceResult.ok strayQuizReply) initialAppState
      = (initialAppState, []) ∧
    refreshChallenges ServiceResult.networkError initialAppState
      = (initialAppState, []) := by
  exact refresh_noop_without_analysis (ServiceResult.ok strayQuizReply)
    ServiceResult.networkError initialAppState rfl

/-!
## Claim theorems: quiz runner
-/

/-- A concrete Aptitude question for the quiz witnesses. -/
def aptitudeQuestion : QuizQuestion :=
  { id := 1
  , category := "Aptitude"
  , question := "What is 2 + 2?"
  , options := ["3", "4"]
  , correctAnswer := 1
  , explanation := "2 + 2 = 4." }

/-- Shared helper: one quiz interaction raises the score by at most one, and
only on a step that flips the result flag from hidden to shown. -/
theorem quizStep_score_le (questions : List QuizQuestion) (st : QuizState)
    (a : QuizAction) :
    (quizStep questions st a).score ≤ st.score +
      (if st.showResult = false ∧ (quizStep questions st a).showResult = true
       then 1 else 0) := by
  cases a with
  | selectCategory cat =>
    simp [quizStep, handleCategorySelect]
  | backToTopics =>
    simp [quizStep, handleBackToTopics]
  | next =>
    simp only [quizStep, handleNext]
    split <;> split <;> simp_all <;> omega
  | select idx =>
    simp only [quizStep, handleSelect]
    by_cases h : st.showResult
    · simp [h]
    · simp only [h, if_false, Bool.false_eq_true]
      cases hq : (activeQuestions questions st)[st.currentIdx]? with
      | none => simp [h]
      | some currentQ =>
        simp only [eq_self_iff_true, and_true, h]
        split <;> split <;> simp_all <;> omega

/-- C10: in a quiz category run, (a) once the result for the current
question is shown, any further option selection is a no-op (selection and
score unchanged); (b) an effective selection — the first one for the current
question — shows the result, records the option and increments the score
exactly when the selected index equals the question's `correctAnswer`; hence
(c) over any interaction sequence the score grows by at most the number of
questions answered (the selections that took effect). -/
theorem quiz_score_at_most_once_per_question (questions : List QuizQuestion)
    (st : QuizState) :
    (st.showResult = true → ∀ idx, handleSelect questions st idx = st) ∧
    (∀ idx currentQ, st.showResult = false →
      (activeQuestions questions st)[st.currentIdx]? = some currentQ →
      (handleSelect questions st idx).score
          = (if (idx : Int) = currentQ.correctAnswer then st.score + 1
             else st.score) ∧
      (handleSelect questions st idx).selectedOption = some idx ∧
      (handleSelect questions st idx).showResult = true) ∧
    (∀ actions, (quizRun questions st actions).score
        ≤ st.score + answeredCount questions st actions) := by
  refine ⟨?_, ?_, ?_⟩
  · intro h idx
    simp [handleSelect, h]
  · intro idx currentQ h1 h2
    simp [handleSelect, h1, h2]
  · intro actions
    induction actions generalizing st with
    | nil => simp [quizRun, answeredCount]
    | cons a rest ih =>
      have h1 := ih (quizStep questions st a)
      have h2 := quizStep_score_le questions st a
      simp only [quizRun, answeredCount]
      omega

/-- Witness for C10 at a concrete run: in the Aptitude category with one
question, selecting option 1 (the correct answer) is effective, and a repeat
selection after the result is shown leaves the state unchanged. -/
theorem quiz_score_at_most_once_per_question_witness :
    (handleSelect [aptitudeQuestion]
        (handleCategorySelect initialQuizState "Aptitude") 1).showResult
      = true ∧
    handleSelect [aptitudeQuestion]
        (handleSelect [aptitudeQuestion]
          (handleCategorySelect initialQuizState "Aptitude") 1) 0
      = handleSelect [aptitudeQuestion]
          (handleCategorySelect initialQuizState "Aptitude") 1 ∧
    (quizRun [aptitudeQuestion]
        (handleCategorySelect initialQuizState "Aptitude")
        [QuizAction.select 1, QuizAction.select 0]).score
      ≤ 0 + answeredCount [aptitudeQuestion]
          (handleCategorySelect initialQuizState "Aptitude")
          [QuizAction.select 1, QuizAction.select 0] := by
  have hshown := ((quiz_score_at_most_once_per_question [aptitudeQuestion]
    (handleCategorySelect initialQuizState "Aptitude")).2.1 1
    aptitudeQuestion rfl rfl).2.2
  refine ⟨hshown, ?_, ?_⟩
  · exact (quiz_score_at_most_once_per_question [aptitudeQuestion]
      (handleSelect [aptitudeQuestion]
        (handleCategorySelect initialQuizState "Aptitude") 1)).1 hshown 0
  · exact (quiz_score_at_most_once_per_question [aptitudeQuestion]
      (handleCategorySelect initialQuizState "Aptitude")).2.2
      [QuizAction.select 1, QuizAction.select 0]

end SkillBridge
